import Mathlib

/-!
Verification development for the BioNeMo service example notebooks.

The notebooks call hosted inference services over HTTP. The code verified
here is the asynchronous task-polling helper `query_async_result` from
`protein-generation-pipeline.ipynb`, the batch removal-loop polling pattern
from `virtual-screening-pipeline.ipynb` (the same loop appears in the
AlphaFold2 notebook), and `run_diffdock` from the DiffDock NIM notebook.

Python effects are made explicit: the network is a function from URL to the
stream of responses successive GETs receive, console output is collected in
a list, `time.sleep` durations are collected in a list, and an uncaught
Python exception is an `Except.error`. Loops that the source runs without
bound are given an explicit fuel; returning `none` at fuel exhaustion means
the loop is still running after that many iterations.
-/

namespace BioNeMo

/-- A JSON value as produced by `json.loads`. An `obj` models the parsed
Python dict, so its keys are the dict's keys (already deduplicated). -/
inductive Json where
  | null
  | bool (b : Bool)
  | num (n : Int)
  | str (s : String)
  | arr (elems : List Json)
  | obj (fields : List (String × Json))
deriving Repr

mutual

/-- Python `repr()` of a value produced by `json.loads`. -/
def pyRepr : Json → String
  | .null => "None"
  | .bool true => "True"
  | .bool false => "False"
  | .num n => toString n
  | .str s => "\x27" ++ s ++ "\x27"
  | .arr elems => "[" ++ String.intercalate ", " (pyReprList elems) ++ "]"
  | .obj fields => "\x7b" ++ String.intercalate ", " (pyReprFields fields) ++ "\x7d"

/-- Python repr of each element of a parsed JSON array. -/
def pyReprList : List Json → List String
  | [] => []
  | x :: xs => pyRepr x :: pyReprList xs

/-- Python repr of each key-value entry of a parsed JSON object. -/
def pyReprFields : List (String × Json) → List String
  | [] => []
  | kv :: xs => ("\x27" ++ kv.1 ++ "\x27: " ++ pyRepr kv.2) :: pyReprFields xs

end

/-- Python `str()` of a value produced by `json.loads`, as an f-string
renders it: a str is inserted verbatim, other values via `repr`. -/
def pyStr : Json → String
  | .str s => s
  | v => pyRepr v

/-- Model of `requests.models.Response`: the HTTP status code, the body text, and
the result of `json.loads` on the body (`none` when the body is not valid
JSON, in which case `json.loads` / `response.json()` raises). -/
structure Response where
  status_code : Nat
  text : String
  jsonBody : Option Json
deriving Repr

/-- Python `d[key]` on a parsed JSON value: the value at `key` when the
value is a dict that has it, `none` when the subscript raises. -/
def jsonGet : Json → String → Option Json
  | .obj fields, key => (fields.find? (fun kv => kv.1 = key)).map (fun kv => kv.2)
  | _, _ => none

/-- The dynamically typed `request` argument of `query_async_result`:
a `str`, a `requests.models.Response`, or a value of any other type. -/
inductive PyRequest where
  | ofString (s : String)
  | ofResponse (r : Response)
  | otherType

/-- The binding of `correlation_id` at the top of `query_async_result`:
a str is the id itself; for a Response, `json.loads(request.content)`
(raising on a non-JSON body) then subscripting `correlation_id` (raising
when absent). For any other type neither branch runs, so the first use of
`correlation_id` inside the loop raises NameError before any request is
issued; that error is surfaced here, before the loop. -/
def extract_correlation_id : PyRequest → Except String Json
  | .ofString s => .ok (.str s)
  | .ofResponse r =>
    match r.jsonBody with
    | none => .error "json.decoder.JSONDecodeError"
    | some submission_response =>
      match jsonGet submission_response "correlation_id" with
      | some v => .ok v
      | none => .error "KeyError: correlation_id"
  | .otherType => .error "NameError: name correlation_id is not defined"

/-- The `control_info` object of a task status record. -/
structure ControlInfo where
  status : String
deriving Repr, DecidableEq

/-- A task status record returned by `GET {API_HOST}/task/{correlation_id}`
after `json.loads`: the fields the poller reads. -/
structure StatusResult where
  control_info : ControlInfo
  response : String
deriving Repr, DecidableEq

/-- The observable behavior of one completed call of the polling loop: the
value returned (`none` models Python's bare `return`, i.e. `None`), how
many status GETs were issued, the durations passed to `time.sleep`, and
the lines written to the console. -/
structure PollTrace where
  result : Option String
  queries : Nat
  sleeps : List Nat
  printed : List String
deriving Repr, DecidableEq

/-- The `while True` loop of `query_async_result`. `statuses k` is the
record the k-th GET of this task URL returns; `i` is the loop counter
(incremented after each non-terminal iteration, it feeds the printed
dots). `fuel` bounds how many iterations we observe: `none` means the loop
has not returned within `fuel` iterations. -/
def pollLoop (statuses : Nat → StatusResult) (print_result : Bool) (i : Nat) :
    Nat → Option PollTrace
  | 0 => none
  | fuel + 1 =>
    let status_result := statuses i
    if status_result.control_info.status = "DONE" then
      some { result := some status_result.response, queries := 1, sleeps := [],
             printed := if print_result then [status_result.response] else [] }
    else if status_result.control_info.status = "ERROR" then
      some { result := none, queries := 1, sleeps := [],
             printed := ["ERROR, Cancelling Result Retrieval"] }
    else
      match pollLoop statuses print_result (i + 1) fuel with
      | none => none
      | some t =>
        some { result := t.result, queries := t.queries + 1, sleeps := 10 :: t.sleeps,
               printed := (status_result.control_info.status
                 ++ String.mk (List.replicate i '.')) :: t.printed }

/-- The notebook's service base URL. -/
def API_HOST : String := "https://api.bionemo.ngc.nvidia.com/v1"

/-- The URL the poller GETs: the f-string interpolates `correlation_id`. -/
def taskUrl (correlation_id : Json) : String :=
  API_HOST ++ "/task/" ++ pyStr correlation_id

/-- The function `query_async_result` of `protein-generation-pipeline.ipynb`. `net`
models the remote service: for each URL, the sequence of status records
successive GETs of it receive. `.error e` is an uncaught Python exception,
`.ok none` a call still looping after `fuel` iterations, `.ok (some t)` a
completed call with observable behavior `t`. -/
def query_async_result (net : String → Nat → StatusResult) (request : PyRequest)
    (print_result : Bool) (fuel : Nat) : Except String (Option PollTrace) :=
  match extract_correlation_id request with
  | .error e => .error e
  | .ok correlation_id => .ok (pollLoop (net (taskUrl correlation_id)) print_result 0 fuel)

/-- A status record is terminal when the poller stops on it. -/
def isTerminal (r : StatusResult) : Prop :=
  r.control_info.status = "DONE" ∨ r.control_info.status = "ERROR"

instance (r : StatusResult) : Decidable (isTerminal r) :=
  inferInstanceAs (Decidable (_ = _ ∨ _ = _))

/-- The JSON payload `run_diffdock` builds for the inference request. -/
structure DiffDockRequest where
  ligand : String
  ligand_file_type : String
  protein : String
  num_poses : Nat
  time_divisions : Nat
  steps : Nat
  save_trajectory : Bool
  is_staged : Bool
deriving Repr, DecidableEq

/-- The `data` dict of `run_diffdock`, given the two file contents. -/
def diffdockData (protein_bytes ligand_bytes : String) : DiffDockRequest :=
  { ligand := ligand_bytes, ligand_file_type := "sdf", protein := protein_bytes,
    num_poses := 10, time_divisions := 20, steps := 18,
    save_trajectory := false, is_staged := false }

/-- The function `run_diffdock` of the DiffDock NIM notebook, after the two input
files have been read into strings. `post` models `requests.post`: the HTTP
response received for a given JSON payload. The first component is the
console output; the second is the value of the final `response.json()`,
which raises (`.error`) when the body is not valid JSON. -/
def run_diffdock (post : DiffDockRequest → Response)
    (protein_bytes ligand_bytes : String) : List String × Except String Json :=
  let response := post (diffdockData protein_bytes ligand_bytes)
  let printed :=
    if response.status_code = 200 then
      ["Request successful, output saved to output.json"]
    else
      ["Request failed with status code " ++ toString response.status_code,
       "Response: " ++ response.text]
  (printed,
    match response.jsonBody with
    | some j => .ok j
    | none => .error "json.decoder.JSONDecodeError")

/-- Python `list.remove(x)`: delete the first occurrence of `x`. -/
def removeFirst (x : String) : List String → List String
  | [] => []
  | y :: ys => if y = x then ys else y :: removeFirst x ys

/-- One pass of `for request_id in correlation_ids: if
fetch_task_status(request_id) == "DONE": ...; correlation_ids.remove(request_id)`
from the batch polling cells. Python iterates by index over the mutating
list, so a removal shifts the sequel left and the next index skips the
element that followed the removed occurrence. `idx` is the iterator index;
`fuel` starts at the list's length, which bounds the iteration count since
`l.length - idx` shrinks at every step and the walk stops at `idx ≥
l.length`. Returns the list as left by the pass and the identifiers whose
status was queried, in query order. -/
def forPassAux (fetch_task_status : String → String) :
    Nat → List String → Nat → List String → List String × List String
  | 0, l, _, queried => (l, queried)
  | fuel + 1, l, idx, queried =>
    if h : idx < l.length then
      let request_id := l.get ⟨idx, h⟩
      if fetch_task_status request_id = "DONE" then
        forPassAux fetch_task_status fuel (removeFirst request_id l) (idx + 1)
          (queried ++ [request_id])
      else
        forPassAux fetch_task_status fuel l (idx + 1) (queried ++ [request_id])
    else (l, queried)

/-- One full `for` pass over the pending collection. -/
def forPass (fetch_task_status : String → String) (correlation_ids : List String) :
    List String × List String :=
  forPassAux fetch_task_status correlation_ids.length correlation_ids 0 []

/-- The batch removal loop `while len(correlation_ids): time.sleep(...);
for request_id in correlation_ids: ...`. `statusAt p` is what
`api.fetch_task_status` returns during pass `p` (the loop sleeps once per
pass, before the pass). Returns the number of passes when the loop exits
within `fuel` passes, `none` when it is still looping. -/
def batchPoll (statusAt : Nat → String → String) (p : Nat) :
    Nat → List String → Option Nat
  | 0, correlation_ids => if correlation_ids.isEmpty then some 0 else none
  | fuel + 1, correlation_ids =>
    if correlation_ids.isEmpty then some 0
    else
      match batchPoll statusAt (p + 1) fuel (forPass (statusAt p) correlation_ids).1 with
      | some n => some (n + 1)
      | none => none

/-- The pending collection after `n` passes starting from pass `p`. -/
def passIter (statusAt : Nat → String → String) (p : Nat) :
    Nat → List String → List String
  | 0, correlation_ids => correlation_ids
  | n + 1, correlation_ids =>
    passIter statusAt (p + 1) n (forPass (statusAt p) correlation_ids).1

/-! ## Demo service behaviors, used to instantiate the theorems -/

/-- A service that reports RUNNING twice, then DONE with the payload of the
concrete scenario in the design document. -/
def netRRD : String → Nat → StatusResult := fun _ k =>
  if k < 2 then { control_info := { status := "RUNNING" }, response := "" }
  else { control_info := { status := "DONE" }, response := "\x7b\"result\":42\x7d" }

/-- A service that reports RUNNING forever. -/
def netRUN : String → Nat → StatusResult :=
  fun _ _ => { control_info := { status := "RUNNING" }, response := "" }

/-- A service that reports ERROR immediately. -/
def netERR : String → Nat → StatusResult :=
  fun _ _ => { control_info := { status := "ERROR" }, response := "" }

/-! ## Behavior of the polling loop -/

/-- When the statuses at `i, i+1, ..., i+k-1` are non-terminal and the one
at `i+k` is terminal, the loop returns after exactly `k+1` queries and `k`
ten-second sleeps, with the DONE payload or the ERROR `None`. -/
theorem pollLoop_first_terminal (statuses : Nat → StatusResult) (pr : Bool)
    (k : Nat) :
    ∀ i fuel, (∀ j, j < k → ¬ isTerminal (statuses (i + j))) →
      isTerminal (statuses (i + k)) → k < fuel →
      ∃ t, pollLoop statuses pr i fuel = some t ∧
        t.queries = k + 1 ∧ t.sleeps = List.replicate k 10 ∧
        ((statuses (i + k)).control_info.status = "DONE" →
          t.result = some (statuses (i + k)).response) ∧
        ((statuses (i + k)).control_info.status = "ERROR" → t.result = none) := by
  induction k with
  | zero =>
    intro i fuel _ hterm hfuel
    obtain ⟨f, rfl⟩ : ∃ f, fuel = f + 1 := ⟨fuel - 1, by omega⟩
    simp only [Nat.add_zero] at hterm ⊢
    rcases hterm with hd | he
    · exact ⟨{ result := some (statuses i).response, queries := 1, sleeps := [],
               printed := if pr = true then [(statuses i).response] else [] },
        by simp [pollLoop, hd], rfl, rfl, fun _ => rfl,
        fun he => by rw [hd] at he; exact absurd he (by decide)⟩
    · have hnd : ¬ (statuses i).control_info.status = "DONE" := by
        rw [he]; decide
      exact ⟨{ result := none, queries := 1, sleeps := [],
               printed := ["ERROR, Cancelling Result Retrieval"] },
        by simp [pollLoop, hnd, he], rfl, rfl,
        fun hd => by rw [he] at hd; exact absurd hd (by decide), fun _ => rfl⟩
  | succ k ih =>
    intro i fuel hk hterm hfuel
    obtain ⟨f, rfl⟩ : ∃ f, fuel = f + 1 := ⟨fuel - 1, by omega⟩
    have h0 : ¬ isTerminal (statuses i) := by
      have := hk 0 (by omega); simpa using this
    have hnd : ¬ (statuses i).control_info.status = "DONE" :=
      fun h => h0 (Or.inl h)
    have hne : ¬ (statuses i).control_info.status = "ERROR" :=
      fun h => h0 (Or.inr h)
    have hshift : i + (k + 1) = i + 1 + k := by omega
    obtain ⟨t, ht, hq, hs, hdone, herr⟩ :=
      ih (i + 1) f
        (fun j hj => by
          have := hk (j + 1) (by omega)
          rwa [show i + (j + 1) = i + 1 + j by omega] at this)
        (by rwa [hshift] at hterm) (by omega)
    refine ⟨{ result := t.result, queries := t.queries + 1, sleeps := 10 :: t.sleeps,
              printed := ((statuses i).control_info.status
                ++ String.mk (List.replicate i '.')) :: t.printed },
      by simp [pollLoop, hnd, hne, ht], by simp [hq],
      by simp [hs, List.replicate_succ], ?_, ?_⟩
    · intro hd
      rw [hshift] at hd ⊢
      exact hdone hd
    · intro he
      rw [hshift] at he
      exact herr he

/-- The loop returns within `fuel` iterations exactly when one of the
first `fuel` statuses is terminal. -/
theorem pollLoop_isSome_iff (statuses : Nat → StatusResult) (pr : Bool)
    (fuel : Nat) :
    ∀ i, (∃ t, pollLoop statuses pr i fuel = some t) ↔
      ∃ k, k < fuel ∧ isTerminal (statuses (i + k)) := by
  induction fuel with
  | zero => intro i; simp [pollLoop]
  | succ f ih =>
    intro i
    by_cases hd : (statuses i).control_info.status = "DONE"
    · constructor
      · intro _; exact ⟨0, by omega, Or.inl hd⟩
      · intro _
        exact ⟨{ result := some (statuses i).response, queries := 1, sleeps := [],
                 printed := if pr = true then [(statuses i).response] else [] },
          by simp [pollLoop, hd]⟩
    · by_cases he : (statuses i).control_info.status = "ERROR"
      · constructor
        · intro _; exact ⟨0, by omega, Or.inr he⟩
        · intro _
          exact ⟨{ result := none, queries := 1, sleeps := [],
                   printed := ["ERROR, Cancelling Result Retrieval"] },
            by simp [pollLoop, hd, he]⟩
      · constructor
        · rintro ⟨t, ht⟩
          have hrec : ∃ t0, pollLoop statuses pr (i + 1) f = some t0 := by
            rcases h : pollLoop statuses pr (i + 1) f with _ | t0
            · simp [pollLoop, hd, he, h] at ht
            · exact ⟨t0, rfl⟩
          obtain ⟨k, hkf, hterm⟩ := (ih (i + 1)).mp hrec
          exact ⟨k + 1, by omega, by rwa [show i + (k + 1) = i + 1 + k by omega]⟩
        · rintro ⟨k, hkf, hterm⟩
          rcases k with _ | k
          · exact absurd hterm (by simpa [isTerminal] using not_or.mpr ⟨hd, he⟩)
          · obtain ⟨t0, ht0⟩ := (ih (i + 1)).mpr
              ⟨k, by omega, by rwa [show i + (k + 1) = i + 1 + k by omega] at hterm⟩
            exact ⟨{ result := t0.result, queries := t0.queries + 1,
                     sleeps := 10 :: t0.sleeps,
                     printed := ((statuses i).control_info.status
                       ++ String.mk (List.replicate i '.')) :: t0.printed },
              by simp [pollLoop, hd, he, ht0]⟩

/-- C1: for every status sequence whose first two queried statuses are
non-terminal and whose third is DONE with payload P, query_async_result
returns exactly P after sleeping exactly two fixed 10-second intervals. -/
theorem query_async_result_two_running_then_done
    (net : String → Nat → StatusResult) (s P : String) (pr : Bool) (fuel : Nat)
    (h0 : ¬ isTerminal (net (taskUrl (.str s)) 0))
    (h1 : ¬ isTerminal (net (taskUrl (.str s)) 1))
    (h2 : (net (taskUrl (.str s)) 2).control_info.status = "DONE")
    (hP : (net (taskUrl (.str s)) 2).response = P)
    (hfuel : 2 < fuel) :
    ∃ t, query_async_result net (.ofString s) pr fuel = .ok (some t) ∧
      t.result = some P ∧ t.sleeps = [10, 10] := by
  obtain ⟨t, ht, _, hs, hdone, _⟩ :=
    pollLoop_first_terminal (net (taskUrl (.str s))) pr 2 0 fuel
      (fun j hj => by
        match j, hj with
        | 0, _ => exact h0
        | 1, _ => exact h1)
      (Or.inl h2) hfuel
  refine ⟨t, ?_, ?_, by simpa using hs⟩
  · simp [query_async_result, extract_correlation_id, ht]
  · rw [hdone h2, hP]

/-- C1 witness: the design document's concrete scenario. -/
theorem query_async_result_two_running_then_done_witness :
    ∃ t, query_async_result netRRD (.ofString "abc123") false 3 = .ok (some t) ∧
      t.result = some "\x7b\"result\":42\x7d" ∧ t.sleeps = [10, 10] :=
  query_async_result_two_running_then_done netRRD "abc123" "\x7b\"result\":42\x7d"
    false 3 (by decide) (by decide) (by decide) rfl (by decide)

/-- C2: the poller has no iteration bound and no timeout: when no queried
status is terminal the call never returns, and for every fuel it has
returned exactly when some queried status in that window is DONE or
ERROR. -/
theorem query_async_result_no_timeout
    (net : String → Nat → StatusResult) (s : String) (pr : Bool) :
    ((∀ i, ¬ isTerminal (net (taskUrl (.str s)) i)) →
      ∀ fuel, query_async_result net (.ofString s) pr fuel = .ok none) ∧
    (∀ fuel, (∃ t, query_async_result net (.ofString s) pr fuel = .ok (some t)) ↔
      ∃ k, k < fuel ∧ isTerminal (net (taskUrl (.str s)) k)) := by
  have key : ∀ fuel, (∃ t, pollLoop (net (taskUrl (.str s))) pr 0 fuel = some t) ↔
      ∃ k, k < fuel ∧ isTerminal (net (taskUrl (.str s)) k) := by
    intro fuel
    simpa using pollLoop_isSome_iff (net (taskUrl (.str s))) pr fuel 0
  constructor
  · intro hnever fuel
    rcases hp : pollLoop (net (taskUrl (.str s))) pr 0 fuel with _ | t
    · simp [query_async_result, extract_correlation_id, hp]
    · obtain ⟨k, _, hterm⟩ := (key fuel).mp ⟨t, hp⟩
      exact absurd hterm (hnever k)
  · intro fuel
    constructor
    · rintro ⟨t, ht⟩
      refine (key fuel).mp ⟨t, ?_⟩
      simpa [query_async_result, extract_correlation_id] using ht
    · intro hex
      obtain ⟨t, ht⟩ := (key fuel).mpr hex
      exact ⟨t, by simp [query_async_result, extract_correlation_id, ht]⟩

/-- C2 witness: an all-RUNNING service never returns; a service that is
DONE on the third query has returned within fuel 3. -/
theorem query_async_result_no_timeout_witness :
    query_async_result netRUN (.ofString "abc123") false 7 = .ok none ∧
    ∃ t, query_async_result netRRD (.ofString "abc123") false 3 = .ok (some t) :=
  ⟨(query_async_result_no_timeout netRUN "abc123" false).1
      (fun i => by simp [netRUN, isTerminal]) 7,
   ((query_async_result_no_timeout netRRD "abc123" false).2 3).mpr
      ⟨2, by decide, by decide⟩⟩

/-- C3: a first status of ERROR makes query_async_result return None at
once: no exception, one query, no sleep, and the console message as the
only other effect. -/
theorem query_async_result_error_aborts
    (net : String → Nat → StatusResult) (s : String) (pr : Bool) (fuel : Nat)
    (h : (net (taskUrl (.str s)) 0).control_info.status = "ERROR")
    (hfuel : 0 < fuel) :
    query_async_result net (.ofString s) pr fuel = .ok (some
      { result := none, queries := 1, sleeps := [],
        printed := ["ERROR, Cancelling Result Retrieval"] }) := by
  obtain ⟨f, rfl⟩ : ∃ f, fuel = f + 1 := ⟨fuel - 1, by omega⟩
  have hnd : ¬ (net (taskUrl (.str s)) 0).control_info.status = "DONE" := by
    rw [h]; decide
  simp [query_async_result, extract_correlation_id, pollLoop, hnd, h]

/-- C3 witness: the immediately-erroring service. -/
theorem query_async_result_error_aborts_witness :
    query_async_result netERR (.ofString "abc123") false 5 = .ok (some
      { result := none, queries := 1, sleeps := [],
        printed := ["ERROR, Cancelling Result Retrieval"] }) :=
  query_async_result_error_aborts netERR "abc123" false 5 rfl (by decide)

/-- C5: polling with the raw correlation-id string is identical to polling
with a submission Response whose JSON body's correlation_id field is that
string. -/
theorem query_async_result_extraction_transparent
    (net : String → Nat → StatusResult) (s : String) (r : Response)
    (pr : Bool) (fuel : Nat) (j : Json)
    (hbody : r.jsonBody = some j)
    (hfield : jsonGet j "correlation_id" = some (.str s)) :
    query_async_result net (.ofResponse r) pr fuel =
      query_async_result net (.ofString s) pr fuel := by
  simp [query_async_result, extract_correlation_id, hbody, hfield]

/-- A submission response carrying the scenario's correlation id. -/
def demoSubmission : Response :=
  { status_code := 200, text := "",
    jsonBody := some (.obj [("correlation_id", .str "abc123")]) }

/-- C5 witness at a concrete submission response. -/
theorem query_async_result_extraction_transparent_witness :
    query_async_result netRRD (.ofResponse demoSubmission) false 3 =
      query_async_result netRRD (.ofString "abc123") false 3 :=
  query_async_result_extraction_transparent netRRD "abc123" demoSubmission false 3
    (.obj [("correlation_id", .str "abc123")]) rfl rfl

/-- C7: the first terminal status, at index k, ends the poll after exactly
k+1 status queries and k sleeps: nothing is queried or slept after the
terminal observation. -/
theorem query_async_result_terminal_at_k
    (net : String → Nat → StatusResult) (s : String) (pr : Bool) (k fuel : Nat)
    (hk : ∀ j, j < k → ¬ isTerminal (net (taskUrl (.str s)) j))
    (hterm : isTerminal (net (taskUrl (.str s)) k))
    (hfuel : k < fuel) :
    ∃ t, query_async_result net (.ofString s) pr fuel = .ok (some t) ∧
      t.queries = k + 1 ∧ t.sleeps = List.replicate k 10 := by
  obtain ⟨t, ht, hq, hs, _, _⟩ :=
    pollLoop_first_terminal (net (taskUrl (.str s))) pr k 0 fuel
      (fun j hj => by simpa using hk j hj)
      (by simpa using hterm) hfuel
  exact ⟨t, by simp [query_async_result, extract_correlation_id, ht], hq, hs⟩

/-- C7 witness: terminal DONE at index 2. -/
theorem query_async_result_terminal_at_k_witness :
    ∃ t, query_async_result netRRD (.ofString "abc123") false 3 = .ok (some t) ∧
      t.queries = 2 + 1 ∧ t.sleeps = List.replicate 2 10 :=
  query_async_result_terminal_at_k netRRD "abc123" false 2 3
    (by decide) (by decide) (by decide)

/-- C9: an argument that is neither a str nor a requests Response leaves
correlation_id unbound, so the call raises NameError at its first use,
before any status query or sleep. -/
theorem query_async_result_other_type_raises
    (net : String → Nat → StatusResult) (pr : Bool) (fuel : Nat) :
    query_async_result net .otherType pr fuel =
      .error "NameError: name correlation_id is not defined" := rfl

/-! ## run_diffdock -/

/-- A 500 response whose body is not valid JSON. -/
def badGatewayResp : Response :=
  { status_code := 500, text := "Internal Server Error", jsonBody := none }

/-- C6 counterexample: on a non-200 response whose body is not valid JSON,
run_diffdock does not return normally: the final response.json() raises. -/
theorem run_diffdock_non200_can_raise :
    badGatewayResp.status_code ≠ 200 ∧
    (run_diffdock (fun _ => badGatewayResp) "protein" "ligand").2 =
      .error "json.decoder.JSONDecodeError" :=
  ⟨by decide, rfl⟩

/-- C6 amended: on every non-200 response the failure is reported by
printing the status code and the response body, and the error-handling
branch itself raises nothing; the call then returns normally exactly when
the response body is valid JSON (the final response.json() raises
otherwise). -/
theorem run_diffdock_non200_reports
    (post : DiffDockRequest → Response) (protein_bytes ligand_bytes : String)
    (hc : (post (diffdockData protein_bytes ligand_bytes)).status_code ≠ 200) :
    (run_diffdock post protein_bytes ligand_bytes).1 =
      ["Request failed with status code "
         ++ toString (post (diffdockData protein_bytes ligand_bytes)).status_code,
       "Response: " ++ (post (diffdockData protein_bytes ligand_bytes)).text] ∧
    ((∃ j, (run_diffdock post protein_bytes ligand_bytes).2 = .ok j) ↔
      ((post (diffdockData protein_bytes ligand_bytes)).jsonBody).isSome) := by
  constructor
  · simp [run_diffdock, hc]
  · rcases hb : (post (diffdockData protein_bytes ligand_bytes)).jsonBody with _ | j
    · simp [run_diffdock, hb]
    · simp [run_diffdock, hb]

/-- A 403 response with a valid JSON body. -/
def authFailResp : Response :=
  { status_code := 403, text := "\x7b\"detail\":\"unauthorized\"\x7d",
    jsonBody := some (.obj [("detail", .str "unauthorized")]) }

/-- C6 amended witness: a 403 with a JSON body is printed and returned. -/
theorem run_diffdock_non200_reports_witness :
    (run_diffdock (fun _ => authFailResp) "protein" "ligand").1 =
      ["Request failed with status code " ++ toString authFailResp.status_code,
       "Response: " ++ authFailResp.text] ∧
    ((∃ j, (run_diffdock (fun _ => authFailResp) "protein" "ligand").2 = .ok j) ↔
      authFailResp.jsonBody.isSome) :=
  run_diffdock_non200_reports (fun _ => authFailResp) "protein" "ligand" (by decide)

/-- C10: the return value of run_diffdock is the JSON-decoded response
body whatever the HTTP status code is, so the returned value cannot tell
success from failure; and a non-200 response with a non-JSON body makes
the call raise instead of returning. -/
theorem run_diffdock_return_ignores_status
    (post1 post2 : DiffDockRequest → Response) (protein_bytes ligand_bytes : String) :
    ((post1 (diffdockData protein_bytes ligand_bytes)).jsonBody =
        (post2 (diffdockData protein_bytes ligand_bytes)).jsonBody →
      (run_diffdock post1 protein_bytes ligand_bytes).2 =
        (run_diffdock post2 protein_bytes ligand_bytes).2) ∧
    (∀ j, (post1 (diffdockData protein_bytes ligand_bytes)).jsonBody = some j →
      (run_diffdock post1 protein_bytes ligand_bytes).2 = .ok j) ∧
    ((post1 (diffdockData protein_bytes ligand_bytes)).status_code ≠ 200 →
      (post1 (diffdockData protein_bytes ligand_bytes)).jsonBody = none →
      (run_diffdock post1 protein_bytes ligand_bytes).2 =
        .error "json.decoder.JSONDecodeError") := by
  refine ⟨fun hb => ?_, fun j hj => ?_, fun _ hn => ?_⟩
  · simp only [run_diffdock, hb]
  · simp [run_diffdock, hj]
  · simp [run_diffdock, hn]

/-- A 200 response carrying the same JSON body as `authFailResp`. -/
def okResp : Response :=
  { status_code := 200, text := "\x7b\"detail\":\"unauthorized\"\x7d",
    jsonBody := some (.obj [("detail", .str "unauthorized")]) }

/-- C10 witness: a 200 and a 403 with the same body return the same value,
that value is the decoded body, and a non-JSON 500 body raises. -/
theorem run_diffdock_return_ignores_status_witness :
    (run_diffdock (fun _ => okResp) "p" "l").2 =
      (run_diffdock (fun _ => authFailResp) "p" "l").2 ∧
    (run_diffdock (fun _ => okResp) "p" "l").2 =
      .ok (.obj [("detail", .str "unauthorized")]) ∧
    (run_diffdock (fun _ => badGatewayResp) "p" "l").2 =
      .error "json.decoder.JSONDecodeError" :=
  ⟨(run_diffdock_return_ignores_status (fun _ => okResp) (fun _ => authFailResp)
      "p" "l").1 rfl,
   (run_diffdock_return_ignores_status (fun _ => okResp) (fun _ => okResp)
      "p" "l").2.1 (.obj [("detail", .str "unauthorized")]) rfl,
   (run_diffdock_return_ignores_status (fun _ => badGatewayResp) (fun _ => okResp)
      "p" "l").2.2 (by decide) rfl⟩

/-! ## The batch removal loop -/

/-- Removing one occurrence keeps every member, except possibly `y`. -/
theorem mem_removeFirst_or_eq (x y : String) :
    ∀ l : List String, x ∈ l → x ∈ removeFirst y l ∨ x = y := by
  intro l
  induction l with
  | nil => intro h; cases h
  | cons z zs ih =>
    intro hx
    rcases List.mem_cons.mp hx with rfl | hxs
    · by_cases hz : x = y
      · exact Or.inr hz
      · left
        simp only [removeFirst, if_neg hz]
        exact List.mem_cons_self x _
    · by_cases hz : z = y
      · left; simp only [removeFirst, if_pos hz]; exact hxs
      · rcases ih hxs with h | h
        · left; simp only [removeFirst, if_neg hz]; exact List.mem_cons_of_mem z h
        · exact Or.inr h

/-- A member different from the removed value survives the removal. -/
theorem mem_removeFirst_of_ne (x y : String) (l : List String)
    (hx : x ∈ l) (hne : x ≠ y) : x ∈ removeFirst y l := by
  rcases mem_removeFirst_or_eq x y l hx with h | h
  · exact h
  · exact absurd h hne

/-- No identifier is lost by a pass: each member of the list (or of the
queried accumulator) ends up queried or still in the list. -/
theorem forPassAux_covers (st : String → String) :
    ∀ (fuel : Nat) (l : List String) (idx : Nat) (q : List String) (x : String),
      x ∈ l ∨ x ∈ q →
      x ∈ (forPassAux st fuel l idx q).1 ∨ x ∈ (forPassAux st fuel l idx q).2 := by
  intro fuel
  induction fuel with
  | zero => intro l idx q x hx; simpa [forPassAux] using hx
  | succ fuel ih =>
    intro l idx q x hx
    simp only [forPassAux]
    split
    · next h =>
      split
      · apply ih
        rcases hx with hxl | hxq
        · rcases mem_removeFirst_or_eq x (l.get ⟨idx, h⟩) l hxl with hm | he
          · exact Or.inl hm
          · right; rw [he]
            exact List.mem_append_right _ (List.mem_singleton_self _)
        · exact Or.inr (List.mem_append_left _ hxq)
      · apply ih
        rcases hx with hxl | hxq
        · exact Or.inl hxl
        · exact Or.inr (List.mem_append_left _ hxq)
    · simpa using hx

/-- An identifier whose status is not DONE is never removed by a pass. -/
theorem forPassAux_keeps_not_done (st : String → String) (x : String)
    (hx : st x ≠ "DONE") :
    ∀ (fuel : Nat) (l : List String) (idx : Nat) (q : List String),
      x ∈ l → x ∈ (forPassAux st fuel l idx q).1 := by
  intro fuel
  induction fuel with
  | zero => intro l idx q h; simpa [forPassAux] using h
  | succ fuel ih =>
    intro l idx q hmem
    simp only [forPassAux]
    split
    · next h =>
      split
      · next hdone =>
        apply ih
        refine mem_removeFirst_of_ne x _ l hmem fun he => ?_
        rw [← he] at hdone
        exact hx hdone
      · exact ih _ _ _ hmem
    · exact hmem

/-- Passes leave the empty collection empty. -/
theorem passIter_nil (statusAt : Nat → String → String) :
    ∀ n p, passIter statusAt p n [] = [] := by
  intro n
  induction n with
  | zero => intro p; rfl
  | succ n ih => intro p; simpa [passIter, forPass, forPassAux] using ih (p + 1)

/-- The batch loop returns `n` exactly when `n` passes empty the pending
collection and no fewer do, within the observed fuel. -/
theorem batchPoll_eq_some_iff (statusAt : Nat → String → String) :
    ∀ (fuel p n : Nat) (ids : List String),
      batchPoll statusAt p fuel ids = some n ↔
        (n ≤ fuel ∧ passIter statusAt p n ids = [] ∧
          ∀ m, m < n → passIter statusAt p m ids ≠ []) := by
  intro fuel
  induction fuel with
  | zero =>
    intro p n ids
    rcases ids with _ | ⟨a, as⟩
    · constructor
      · intro h
        simp only [batchPoll, List.isEmpty_nil, if_true, Option.some.injEq] at h
        obtain rfl : n = 0 := h.symm
        exact ⟨Nat.le_refl 0, passIter_nil statusAt 0 p, fun m hm => absurd hm (by omega)⟩
      · rintro ⟨hn, _, _⟩
        obtain rfl : n = 0 := by omega
        rfl
    · constructor
      · intro h
        exact absurd h (by simp [batchPoll])
      · rintro ⟨hn, hpass, _⟩
        obtain rfl : n = 0 := by omega
        exact absurd hpass (by simp [passIter])
  | succ fuel ih =>
    intro p n ids
    rcases ids with _ | ⟨a, as⟩
    · constructor
      · intro h
        simp only [batchPoll, List.isEmpty_nil, if_true, Option.some.injEq] at h
        obtain rfl : n = 0 := h.symm
        exact ⟨by omega, passIter_nil statusAt 0 p, fun m hm => absurd hm (by omega)⟩
      · rintro ⟨_, _, hmin⟩
        rcases n with _ | n
        · rfl
        · exact absurd (passIter_nil statusAt 0 p) (hmin 0 (by omega))
    · constructor
      · intro h
        rcases hrec : batchPoll statusAt (p + 1) fuel (forPass (statusAt p) (a :: as)).1
          with _ | m
        · simp [batchPoll, hrec] at h
        · simp [batchPoll, hrec] at h
          obtain ⟨h1, h2, h3⟩ := (ih (p + 1) m _).mp hrec
          obtain rfl : n = m + 1 := by omega
          refine ⟨by omega, by simpa [passIter] using h2, ?_⟩
          intro j hj
          rcases j with _ | j
          · simp [passIter]
          · simpa [passIter] using h3 j (by omega)
      · rintro ⟨hn, hpass, hmin⟩
        rcases n with _ | n
        · exact absurd hpass (by simp [passIter])
        · have h2 : passIter statusAt (p + 1) n (forPass (statusAt p) (a :: as)).1 = [] := by
            simpa [passIter] using hpass
          have h3 : ∀ m, m < n →
              passIter statusAt (p + 1) m (forPass (statusAt p) (a :: as)).1 ≠ [] := by
            intro m hm
            simpa [passIter] using hmin (m + 1) (by omega)
          have hrec := (ih (p + 1) n _).mpr ⟨by omega, h2, h3⟩
          simp [batchPoll, hrec]

/-- C4 counterexample: with both identifiers DONE, the pass removes "a"
and Python's index iterator then skips "b": an identifier pending at the
start of the pass is not queried during it. -/
theorem batch_pass_skips_after_removal :
    "b" ∈ ["a", "b"] ∧ (forPass (fun _ => "DONE") ["a", "b"]).2 = ["a"] ∧
    "b" ∉ (forPass (fun _ => "DONE") ["a", "b"]).2 := by decide

/-- C4 amended: each pass queries pending identifiers in order but a
removal makes the iterator skip the identifier after it, so a pending
identifier is only guaranteed to be queried or left pending for a later
pass; the loop exits exactly when the pending collection is empty. -/
theorem batch_pass_coverage_and_exit
    (statusAt : Nat → String → String) (st : String → String)
    (p fuel n : Nat) (ids : List String) :
    (∀ x, x ∈ ids → x ∈ (forPass st ids).2 ∨ x ∈ (forPass st ids).1) ∧
    (batchPoll statusAt p fuel ids = some n ↔
      (n ≤ fuel ∧ passIter statusAt p n ids = [] ∧
        ∀ m, m < n → passIter statusAt p m ids ≠ [])) := by
  constructor
  · intro x hx
    rcases forPassAux_covers st ids.length ids 0 [] x (Or.inl hx) with h | h
    · exact Or.inr h
    · exact Or.inl h
  · exact batchPoll_eq_some_iff statusAt fuel p n ids

/-- C4 amended witness: "b" is skipped yet not lost, and the loop exits
after the second pass empties the collection. -/
theorem batch_pass_coverage_and_exit_witness :
    ("b" ∈ (forPass (fun _ => "DONE") ["a", "b"]).2 ∨
      "b" ∈ (forPass (fun _ => "DONE") ["a", "b"]).1) ∧
    batchPoll (fun _ _ => "DONE") 0 5 ["a", "b"] = some 2 :=
  ⟨(batch_pass_coverage_and_exit (fun _ _ => "DONE") (fun _ => "DONE") 0 5 2
      ["a", "b"]).1 "b" (by decide),
   ((batch_pass_coverage_and_exit (fun _ _ => "DONE") (fun _ => "DONE") 0 5 2
      ["a", "b"]).2).mpr (by decide)⟩

/-- An identifier that never reports DONE survives every pass. -/
theorem passIter_keeps_not_done (statusAt : Nat → String → String) (x : String)
    (hx : ∀ q, statusAt q x ≠ "DONE") :
    ∀ (n p : Nat) (ids : List String), x ∈ ids → x ∈ passIter statusAt p n ids := by
  intro n
  induction n with
  | zero => intro p ids h; exact h
  | succ n ih =>
    intro p ids h
    exact ih (p + 1) _
      (forPassAux_keeps_not_done (statusAt p) x (hx p) ids.length ids 0 [] h)

/-- With a never-DONE identifier pending the loop runs out of any fuel. -/
theorem batchPoll_none_of_stuck (statusAt : Nat → String → String) (x : String)
    (hx : ∀ q, statusAt q x ≠ "DONE") :
    ∀ (fuel p : Nat) (ids : List String), x ∈ ids →
      batchPoll statusAt p fuel ids = none := by
  intro fuel
  induction fuel with
  | zero =>
    intro p ids h
    rcases ids with _ | ⟨a, as⟩
    · cases h
    · rfl
  | succ fuel ih =>
    intro p ids h
    rcases ids with _ | ⟨a, as⟩
    · cases h
    · have hrec := ih (p + 1) (forPass (statusAt p) (a :: as)).1
        (forPassAux_keeps_not_done (statusAt p) x (hx p) (a :: as).length (a :: as) 0 [] h)
      simp [batchPoll, hrec]

/-- C8: unlike the single-job poller, the batch loop removes an identifier
only when its status query returns DONE; an identifier that reports ERROR
on every query is never removed, so the loop never terminates. -/
theorem batch_loop_error_never_exits
    (statusAt : Nat → String → String) (x : String) (p : Nat) (ids : List String)
    (hmem : x ∈ ids) (hx : ∀ q, statusAt q x ≠ "DONE") :
    (∀ n, x ∈ passIter statusAt p n ids) ∧
    (∀ fuel, batchPoll statusAt p fuel ids = none) :=
  ⟨fun n => passIter_keeps_not_done statusAt x hx n p ids hmem,
   fun fuel => batchPoll_none_of_stuck statusAt x hx fuel p ids hmem⟩

/-- C8 witness: a single always-ERROR identifier. -/
theorem batch_loop_error_never_exits_witness :
    "a" ∈ passIter (fun _ _ => "ERROR") 0 3 ["a"] ∧
    batchPoll (fun _ _ => "ERROR") 0 7 ["a"] = none :=
  ⟨(batch_loop_error_never_exits (fun _ _ => "ERROR") "a" 0 ["a"] (by decide)
      (fun q => by simp)).1 3,
   (batch_loop_error_never_exits (fun _ _ => "ERROR") "a" 0 ["a"] (by decide)
      (fun q => by simp)).2 7⟩

end BioNeMo
